import Mathlib

/-!
Verification of the `translate` CLI (Go) against its specification.

The repository contains three variants of the same single-file program:
`src/main.go` and two revisions inside `src/unnamed/part_000` (the second
revision adds long-form flag aliases, a version flag and a `usage` help
text). All variants share the credential-resolution, request-construction
and response-handling logic; they differ in how the input text is
resolved from positional arguments / stdin.

The embedding below is a shallow one: external effects (home-directory
lookup, file reads, YAML parsing, the JSON unmarshalling of the HTTP
response body) are passed in explicitly as oracles, and the pure
control flow of the Go functions is translated line by line.
-/

set_option maxRecDepth 100000

namespace TranslateCli

/-- Go struct `Config`: the YAML configuration record with the single
recognized field `api_token`. -/
structure Config where
  APIToken : String
deriving Repr, DecidableEq

/-- Go struct `Message`: a single role/content message of the chat request. -/
structure Message where
  role : String
  content : String
deriving Repr, DecidableEq

/-- Go struct `ChatRequest`: the full request body (`model` + `messages`). -/
structure ChatRequest where
  model : String
  messages : List Message
deriving Repr, DecidableEq

/-- Go anonymous struct element of `ChatResponse.Choices`: wraps one message. -/
structure Choice where
  message : Message
deriving Repr, DecidableEq

/-- Go anonymous struct `ChatResponse.Error`: in-band error object. -/
structure ChatError where
  message : String
  type : String
deriving Repr, DecidableEq

/-- Go struct `ChatResponse`: parsed response body (`choices` + `error`). -/
structure ChatResponse where
  choices : List Choice
  error : ChatError
deriving Repr, DecidableEq

/-- Environment oracle for `loadTokenFromConfig`: the outcomes of
`os.UserHomeDir`, `os.ReadFile` (as a function of the path asked for) and
`yaml.Unmarshal` (as a function of the file contents). An `Except.error`
carries the Go error text. -/
structure ConfigEnv where
  userHomeDir : Except String String
  readFile : String → Except String String
  yamlParse : String → Except String Config

/-- Path computed by `filepath.Join(home, ".config", "openapi", "secret.yml")`
in `loadTokenFromConfig` (for a cleaned, non-empty `home` the join is plain
`/`-separated concatenation). Note the directory is `openapi`. -/
def configPath (home : String) : String :=
  home ++ "/.config/openapi/secret.yml"

/-- Go `loadTokenFromConfig`: resolve the home directory, read the config
file at `configPath`, parse it as YAML, and return the `api_token` field,
failing if any step fails or the field is empty. Identical in all three
variants. -/
def loadTokenFromConfig (env : ConfigEnv) : Except String String :=
  match env.userHomeDir with
  | .error e => .error ("failed to retrieve home directory: " ++ e)
  | .ok home =>
    match env.readFile (configPath home) with
    | .error e => .error ("failed to read config file: " ++ e)
    | .ok data =>
      match env.yamlParse data with
      | .error e => .error ("failed to parse config file: " ++ e)
      | .ok config =>
        if config.APIToken = "" then
          .error "API token not found in config file"
        else
          .ok config.APIToken

/-- Credential-resolution step of `main` (all variants): if the `-a` flag
value is empty, fall back to `loadTokenFromConfig` (a `.error` result makes
`main` exit fatally); otherwise use the flag value verbatim. -/
def resolveToken (apiTokenFlag : String) (env : ConfigEnv) : Except String String :=
  if apiTokenFlag = "" then
    loadTokenFromConfig env
  else
    .ok apiTokenFlag

/-- Input resolution of `src/main.go`'s `main`: with zero positional
arguments the program calls `log.Fatal("No text provided for translation.")`
(modelled as `none`); otherwise the text is `flag.Arg(0)`, the first
positional argument only. -/
def resolveInputMainGo (args : List String) : Option String :=
  match args with
  | [] => none
  | a :: _ => some a

/-- Input resolution of both `src/unnamed/part_000` variants: if positional
arguments are present they are joined with single spaces; otherwise, when
stdin is not a character device (`stdinIsTerminal = false`), all scanned
lines are joined with single spaces; otherwise the text stays `""`. -/
def resolveInput (args : List String) (stdinIsTerminal : Bool)
    (stdinLines : List String) : String :=
  if args.length > 0 then
    String.intercalate " " args
  else if stdinIsTerminal = false then
    String.intercalate " " stdinLines
  else
    ""

/-- Request construction inside `translate` (all variants): the fixed model
identifier and the two-message exchange (fixed system instruction, then the
user message built from the `Translate this from %s to %s: %s` template). -/
def buildChatRequest (fromLang toLang text : String) : ChatRequest :=
  { model := "gpt-4o-mini"
    messages :=
      [ { role := "system"
          content := "You are a translator that only gives the translated text" }
      , { role := "user"
          content := "Translate this from " ++ fromLang ++ " to " ++ toLang
            ++ ": " ++ text } ] }

/-- One diagnostic line emitted by `translate` under the verbose flag,
modelling the `log.Printf` calls without committing to byte formatting. -/
inductive LogEvent where
  | requestPayload (req : ChatRequest)
  | responseStatus (status : String)
  | responseHeaders (headers : String)
  | responseBody (body : String)
  | apiError (message type : String)
deriving Repr, DecidableEq

/-- The HTTP response handed back by `client.Do` in `translate`: the numeric
status code, the status line and headers (logged only), the raw body, and
the outcome of `json.Unmarshal` on that body (an oracle for the JSON
library; `.error` carries the library's error text). -/
structure ApiResponse where
  statusCode : Nat
  status : String
  headers : String
  body : String
  parsed : Except String ChatResponse

/-- Go `translate` (all variants), from request construction onward, with
the network interaction abstracted to the received `ApiResponse`. Returns
the Go `(string, error)` pair as `Except String String` together with the
list of verbose log lines emitted along the way. -/
def translate (apiKey fromLang toLang text : String) (verbose : Bool)
    (resp : ApiResponse) : Except String String × List LogEvent :=
  let req := buildChatRequest fromLang toLang text
  let logs0 : List LogEvent :=
    if verbose then [.requestPayload req] else []
  if resp.statusCode ≠ 200 then
    let logs1 :=
      if verbose then
        logs0 ++ [.responseStatus resp.status, .responseHeaders resp.headers,
          .responseBody resp.body]
      else logs0
    (.error ("unexpected status code from OpenAI API: " ++ toString resp.statusCode),
      logs1)
  else
    match resp.parsed with
    | .error e => (.error ("failed to unmarshal response JSON: " ++ e), logs0)
    | .ok chatResponse =>
      if chatResponse.error.message ≠ "" then
        let logs1 :=
          if verbose then
            logs0 ++ [.apiError chatResponse.error.message chatResponse.error.type]
          else logs0
        (.error chatResponse.error.message, logs1)
      else
        match chatResponse.choices with
        | c :: _ => (.ok c.message.content.trim, logs0)
        | [] => (.error "no translation found in response", logs0)

/-- Result component of `translate` (the Go `(string, error)` pair without
the diagnostic output). -/
def translateResult (apiKey fromLang toLang text : String) (verbose : Bool)
    (resp : ApiResponse) : Except String String :=
  (translate apiKey fromLang toLang text verbose resp).1

/-- Help text of the `usage` function in the latest variant
(`src/unnamed/part_000`, second revision), verbatim. -/
def usageMsg : String :=
  "\nUsage:\n  translate-cli [options] <text>\n\nOptions:\n  -f, -from <language>      Source language (default: en)\n  -t, -to   <language>      Target language (default: en)\n  -a        <api token>     OpenAI API token (default: ~/.config/openai/secret.yml)\n  -c, -copy                 Copy output to clipboard (default: true)\n  -verbose                  Enable verbose mode (default: false)\n  -v, -version              Show version\n  -help                     Show this help message\n\nExamples:\n  translate-cli -f en -t es \"Hello, how are you?\"\n  echo \"Hello, how are you?\" | translate-cli -f en -t es\n\nOpenAI API Token:\n  You can obtain an OpenAI API token from https://platform.openai.com/api-keys.\n  \n  The config file should be a YAML file with the following structure:\n    api_token: YOUR_API_TOKEN\n\n  And should be located at ~/.config/openai/secret.yml\n"

/-- Config-file location as documented by the help text (`~` expanded to the
home directory): directory `openai`, unlike the path the code reads. -/
def documentedConfigPath (home : String) : String :=
  home ++ "/.config/openai/secret.yml"

/-- Sample environment in which the home directory cannot be determined. -/
def envHomeErr : ConfigEnv :=
  { userHomeDir := .error "no home"
    readFile := fun _ => .error "file not found"
    yamlParse := fun _ => .error "bad yaml" }

/-- Sample environment with a valid configuration file holding token `tok`. -/
def envGood : ConfigEnv :=
  { userHomeDir := .ok "/home/u"
    readFile := fun p =>
      if p = "/home/u/.config/openapi/secret.yml" then .ok "api_token: tok"
      else .error "file not found"
    yamlParse := fun d =>
      if d = "api_token: tok" then .ok { APIToken := "tok" }
      else .error "bad yaml" }

/-- C1: with a non-empty `-a` flag value the token is the flag value
verbatim, the result does not depend on the configuration environment
(the file is never consulted), and with an empty flag value the token
comes from `loadTokenFromConfig`. -/
theorem credential_flag_wins (flagVal : String) (env env' : ConfigEnv)
    (h : flagVal ≠ "") :
    resolveToken flagVal env = .ok flagVal
    ∧ resolveToken flagVal env = resolveToken flagVal env'
    ∧ ∀ e2 : ConfigEnv, resolveToken "" e2 = loadTokenFromConfig e2 := by
  refine ⟨?_, ?_, fun e2 => ?_⟩ <;> simp [resolveToken, h]

/-- Witness for C1 at concrete inputs. -/
theorem credential_flag_wins_witness :
    resolveToken "abc" envGood = .ok "abc"
    ∧ resolveToken "abc" envGood = resolveToken "abc" envHomeErr
    ∧ ∀ e2 : ConfigEnv, resolveToken "" e2 = loadTokenFromConfig e2 :=
  credential_flag_wins "abc" envGood envHomeErr (by decide)

/-- C7: `loadTokenFromConfig` fails exactly when the home directory lookup
fails, the config file cannot be read, the file cannot be parsed, or the
`api_token` field is empty; on success it returns the non-empty parsed
`api_token` value. -/
theorem loadToken_spec (env : ConfigEnv) :
    ((∃ e, loadTokenFromConfig env = .error e) ↔
      (∃ e, env.userHomeDir = .error e)
      ∨ (∃ home, env.userHomeDir = .ok home
          ∧ ((∃ e, env.readFile (configPath home) = .error e)
             ∨ (∃ data, env.readFile (configPath home) = .ok data
                 ∧ ((∃ e, env.yamlParse data = .error e)
                    ∨ (∃ cfg, env.yamlParse data = .ok cfg
                        ∧ cfg.APIToken = ""))))))
    ∧ (∀ t, loadTokenFromConfig env = .ok t →
        t ≠ "" ∧ ∃ home data cfg,
          env.userHomeDir = .ok home
          ∧ env.readFile (configPath home) = .ok data
          ∧ env.yamlParse data = .ok cfg
          ∧ cfg.APIToken = t) := by
  constructor
  · rcases hh : env.userHomeDir with e | home
    · simp [loadTokenFromConfig, hh]
    · rcases hr : env.readFile (configPath home) with e | data
      · simp [loadTokenFromConfig, hh, hr]
      · rcases hp : env.yamlParse data with e | cfg
        · simp [loadTokenFromConfig, hh, hr, hp]
        · by_cases ht : cfg.APIToken = "" <;>
            simp [loadTokenFromConfig, hh, hr, hp, ht]
  · intro t hok
    rw [loadTokenFromConfig] at hok
    rcases hh : env.userHomeDir with e | home
    · simp [hh] at hok
    · rcases hr : env.readFile (configPath home) with e | data
      · simp [hh, hr] at hok
      · rcases hp : env.yamlParse data with e | cfg
        · simp [hh, hr, hp] at hok
        · by_cases ht : cfg.APIToken = ""
          · simp [hh, hr, hp, ht] at hok
          · simp [hh, hr, hp, ht] at hok
            exact ⟨hok ▸ ht, home, data, cfg, rfl, hr, hp, hok⟩

/-- Witness for C7: in the valid sample environment the token `tok` is
returned, and it is non-empty. -/
theorem loadToken_spec_witness :
    "tok" ≠ "" ∧ ∃ home data cfg,
      envGood.userHomeDir = .ok home
      ∧ envGood.readFile (configPath home) = .ok data
      ∧ envGood.yamlParse data = .ok cfg
      ∧ cfg.APIToken = "tok" :=
  (loadToken_spec envGood).2 "tok" rfl

/-- Sample 200 response whose parsed body carries an in-band error message
and a non-empty choices array. -/
def respErr200 : ApiResponse :=
  { statusCode := 200
    status := "200 OK"
    headers := "Content-Type: application/json"
    body := "raw"
    parsed := .ok
      { choices := [{ message := { role := "assistant", content := "Hola" } }]
        error := { message := "rate limit exceeded", type := "rate_limit" } } }

/-- Sample 200 response with no in-band error and one choice whose content
carries surrounding whitespace. -/
def respOk200 : ApiResponse :=
  { statusCode := 200
    status := "200 OK"
    headers := "Content-Type: application/json"
    body := "raw"
    parsed := .ok
      { choices := [{ message := { role := "assistant", content := "  Hola mundo  " } }]
        error := { message := "", type := "" } } }

/-- Sample 500 response. -/
def resp500 : ApiResponse :=
  { statusCode := 500
    status := "500 Internal Server Error"
    headers := ""
    body := "oops"
    parsed := .error "invalid JSON" }

/-- Sample 500 response with a different body whose parse even succeeds with
a choice, to show the body is irrelevant on non-200 status. -/
def resp500' : ApiResponse :=
  { statusCode := 500
    status := "500 Internal Server Error"
    headers := "X: y"
    body := "other"
    parsed := .ok
      { choices := [{ message := { role := "assistant", content := "Hola" } }]
        error := { message := "", type := "" } } }

/-- C2: on a parsed 200 response whose error object carries a non-empty
message, `translate` fails with exactly that message, whatever the choices
array holds, and never succeeds. -/
theorem error_message_surfaces (apiKey fromLang toLang text : String)
    (verbose : Bool) (resp : ApiResponse) (cr : ChatResponse)
    (h200 : resp.statusCode = 200) (hp : resp.parsed = .ok cr)
    (herr : cr.error.message ≠ "") :
    translateResult apiKey fromLang toLang text verbose resp
      = .error cr.error.message
    ∧ ∀ s, translateResult apiKey fromLang toLang text verbose resp ≠ .ok s := by
  rw [translateResult, translate]
  simp [h200, hp, herr]

/-- Witness for C2: the "rate limit exceeded in a 200 envelope" scenario
fails with that exact message despite a non-empty choices array. -/
theorem error_message_surfaces_witness :
    translateResult "k" "en" "es" "Hello" false respErr200
      = .error "rate limit exceeded"
    ∧ ∀ s, translateResult "k" "en" "es" "Hello" false respErr200 ≠ .ok s :=
  error_message_surfaces "k" "en" "es" "Hello" false respErr200
    { choices := [{ message := { role := "assistant", content := "Hola" } }]
      error := { message := "rate limit exceeded", type := "rate_limit" } }
    rfl rfl (by decide)

/-- C3: on a parsed 200 response with an empty error message, `translate`
succeeds iff the choices array is non-empty; with a first choice the result
is its message content trimmed, with zero choices the failure is the
"no translation found" error. -/
theorem success_iff_choices (apiKey fromLang toLang text : String)
    (verbose : Bool) (resp : ApiResponse) (cr : ChatResponse)
    (h200 : resp.statusCode = 200) (hp : resp.parsed = .ok cr)
    (herr : cr.error.message = "") :
    ((∃ s, translateResult apiKey fromLang toLang text verbose resp = .ok s)
      ↔ cr.choices ≠ [])
    ∧ (∀ c rest, cr.choices = c :: rest →
        translateResult apiKey fromLang toLang text verbose resp
          = .ok c.message.content.trim)
    ∧ (cr.choices = [] →
        translateResult apiKey fromLang toLang text verbose resp
          = .error "no translation found in response") := by
  rw [translateResult, translate]
  rcases hc : cr.choices with _ | ⟨c, rest⟩ <;>
    simp [h200, hp, herr, hc]

/-- Witness for C3: one choice `"  Hola mundo  "` yields exactly
`"Hola mundo"`. -/
theorem success_iff_choices_witness :
    (∃ s, translateResult "k" "en" "es" "Hello" false respOk200 = .ok s)
    ∧ translateResult "k" "en" "es" "Hello" false respOk200
        = .ok ("  Hola mundo  ".trim) := by
  have h := success_iff_choices "k" "en" "es" "Hello" false respOk200
    { choices := [{ message := { role := "assistant", content := "  Hola mundo  " } }]
      error := { message := "", type := "" } }
    rfl rfl rfl
  refine ⟨h.1.mpr (by decide), ?_⟩
  exact h.2.1 { message := { role := "assistant", content := "  Hola mundo  " } } [] rfl

/-- C6: the request is a deterministic function of the source tag, target
tag and text, with the fixed model identifier and exactly two messages: the
fixed system instruction, then the user message built from the template. -/
theorem request_shape (fromLang toLang text : String) :
    buildChatRequest fromLang toLang text =
      { model := "gpt-4o-mini"
        messages :=
          [ { role := "system"
              content := "You are a translator that only gives the translated text" }
          , { role := "user"
              content := "Translate this from " ++ fromLang ++ " to " ++ toLang
                ++ ": " ++ text } ] }
    ∧ (buildChatRequest fromLang toLang text).messages.length = 2
    ∧ ∀ f t x, f = fromLang → t = toLang → x = text →
        buildChatRequest f t x = buildChatRequest fromLang toLang text := by
  refine ⟨rfl, rfl, ?_⟩
  intro f t x hf ht hx
  rw [hf, ht, hx]

/-- Witness for C6 on a concrete triple. -/
theorem request_shape_witness :
    buildChatRequest "en" "es" "Hello" =
      { model := "gpt-4o-mini"
        messages :=
          [ { role := "system"
              content := "You are a translator that only gives the translated text" }
          , { role := "user"
              content := "Translate this from " ++ "en" ++ " to " ++ "es"
                ++ ": " ++ "Hello" } ] }
    ∧ (buildChatRequest "en" "es" "Hello").messages.length = 2 :=
  ⟨(request_shape "en" "es" "Hello").1, (request_shape "en" "es" "Hello").2.1⟩

/-- C8: any response with a status code other than 200 fails with the
"unexpected status code" error carrying the numeric code, the result is
the same for every response with that status code (so the body, headers
and parse outcome are never consulted), and success is impossible. -/
theorem non200_fails (apiKey fromLang toLang text : String) (verbose : Bool)
    (resp resp' : ApiResponse) (h : resp.statusCode ≠ 200)
    (hsame : resp'.statusCode = resp.statusCode) :
    translateResult apiKey fromLang toLang text verbose resp
      = .error ("unexpected status code from OpenAI API: " ++ toString resp.statusCode)
    ∧ translateResult apiKey fromLang toLang text verbose resp'
        = translateResult apiKey fromLang toLang text verbose resp
    ∧ ∀ s, translateResult apiKey fromLang toLang text verbose resp ≠ .ok s := by
  have h' : resp'.statusCode ≠ 200 := by rw [hsame]; exact h
  refine ⟨?_, ?_, ?_⟩ <;>
    simp [translateResult, translate, h, h', hsame]

/-- Witness for C8: status 500 fails identically for two responses with
different bodies, one of which would even parse to a valid choice. -/
theorem non200_fails_witness :
    translateResult "k" "en" "es" "Hello" false resp500
      = .error ("unexpected status code from OpenAI API: " ++ toString (500 : Nat))
    ∧ translateResult "k" "en" "es" "Hello" false resp500'
        = translateResult "k" "en" "es" "Hello" false resp500
    ∧ ∀ s, translateResult "k" "en" "es" "Hello" false resp500 ≠ .ok s :=
  non200_fails "k" "en" "es" "Hello" false resp500 resp500' (by decide) rfl

/-- C9: the verbose flag does not interfere with the result of `translate`:
for every credential, language pair, text and response, the returned
value (success or failure, and its content) is the same for any two
settings of the flag; only the log output differs. -/
theorem verbose_noninterference (apiKey fromLang toLang text : String)
    (v v' : Bool) (resp : ApiResponse) :
    translateResult apiKey fromLang toLang text v resp
      = translateResult apiKey fromLang toLang text v' resp := by
  rw [translateResult, translateResult, translate, translate]
  by_cases h : resp.statusCode = 200
  · rcases hp : resp.parsed with e | cr
    · simp [h, hp]
    · by_cases he : cr.error.message = ""
      · rcases hc : cr.choices with _ | ⟨c, rest⟩ <;> simp [h, hp, he, hc]
      · simp [h, hp, he]
  · simp [h]

/-- C4 counterexample: `src/main.go` resolves two positional arguments to
the first argument alone (`flag.Arg(0)`), not to their space-joined
concatenation. -/
theorem input_join_counterexample :
    resolveInputMainGo ["hello", "world"]
      ≠ some (String.intercalate " " ["hello", "world"])
    ∧ resolveInputMainGo ["hello", "world"] = some "hello"
    ∧ String.intercalate " " ["hello", "world"] = "hello world" := by
  refine ⟨?_, rfl, rfl⟩
  intro h
  simp [resolveInputMainGo] at h
  exact absurd h (by decide)

/-- C4 amended: in both `src/unnamed/part_000` variants a non-empty
positional argument list resolves to the arguments joined by single spaces,
independently of stdin content; `src/main.go` instead resolves to the first
argument only. -/
theorem input_join_amended (args : List String) (term : Bool)
    (lines lines' : List String) (h : args ≠ []) :
    resolveInput args term lines = String.intercalate " " args
    ∧ resolveInput args term lines = resolveInput args term lines'
    ∧ ∀ a rest, args = a :: rest → resolveInputMainGo args = some a := by
  rcases args with _ | ⟨a, rest⟩
  · exact absurd rfl h
  · refine ⟨?_, ?_, ?_⟩ <;> simp [resolveInput, resolveInputMainGo]

/-- Witness for the amended C4 at concrete inputs. -/
theorem input_join_amended_witness :
    resolveInput ["hola", "mundo"] false ["stdin line"]
      = String.intercalate " " ["hola", "mundo"]
    ∧ resolveInput ["hola", "mundo"] false ["stdin line"]
        = resolveInput ["hola", "mundo"] false []
    ∧ ∀ a rest, ["hola", "mundo"] = a :: rest →
        resolveInputMainGo ["hola", "mundo"] = some a :=
  input_join_amended ["hola", "mundo"] false ["stdin line"] [] (by decide)

/-- C5 counterexample: with zero positional arguments `src/main.go` does not
proceed with an empty text; it exits fatally (`log.Fatal`, modelled as
`none`), so no request is made at all. -/
theorem empty_input_counterexample :
    resolveInputMainGo [] ≠ some "" ∧ resolveInputMainGo [] = none := by
  exact ⟨by decide, rfl⟩

/-- C5 amended: in both `src/unnamed/part_000` variants, when no positional
arguments are given and stdin yields no text (interactive terminal, or a
pipe with no lines), the resolved text is the empty string and the program
proceeds to the request with it; `src/main.go` instead exits fatally when
no positional arguments are given. -/
theorem empty_input_amended (lines : List String) :
    resolveInput [] true lines = ""
    ∧ resolveInput [] false [] = ""
    ∧ resolveInputMainGo [] = none :=
  ⟨rfl, rfl, rfl⟩

/-- C10: the path the code reads is `$HOME/.config/openapi/secret.yml` in
every variant, while the help text documents `~/.config/openai/secret.yml`
(it occurs verbatim in `usageMsg`); the two paths always differ, and
`loadTokenFromConfig` consults the file system only at the `openapi` path,
so a file at the documented path is never read. -/
theorem config_path_mismatch (home : String) (env env' : ConfigEnv)
    (hh : env.userHomeDir = .ok home) (hh' : env'.userHomeDir = .ok home)
    (hy : env'.yamlParse = env.yamlParse)
    (hr : env'.readFile (configPath home) = env.readFile (configPath home)) :
    configPath home = home ++ "/.config/openapi/secret.yml"
    ∧ (∃ pre post, usageMsg = pre ++ "~/.config/openai/secret.yml" ++ post)
    ∧ documentedConfigPath home ≠ configPath home
    ∧ loadTokenFromConfig env' = loadTokenFromConfig env := by
  refine ⟨rfl, ⟨"\nUsage:\n  translate-cli [options] <text>\n\nOptions:\n  -f, -from <language>      Source language (default: en)\n  -t, -to   <language>      Target language (default: en)\n  -a        <api token>     OpenAI API token (default: ~/.config/openai/secret.yml)\n  -c, -copy                 Copy output to clipboard (default: true)\n  -verbose                  Enable verbose mode (default: false)\n  -v, -version              Show version\n  -help                     Show this help message\n\nExamples:\n  translate-cli -f en -t es \"Hello, how are you?\"\n  echo \"Hello, how are you?\" | translate-cli -f en -t es\n\nOpenAI API Token:\n  You can obtain an OpenAI API token from https://platform.openai.com/api-keys.\n  \n  The config file should be a YAML file with the following structure:\n    api_token: YOUR_API_TOKEN\n\n  And should be located at ", "\n", by rfl⟩, ?_, ?_⟩
  · intro hEq
    have hl := congrArg String.length hEq
    rw [documentedConfigPath, configPath, String.length_append,
      String.length_append] at hl
    have h26 : ("/.config/openai/secret.yml" : String).length = 26 := by decide
    have h27 : ("/.config/openapi/secret.yml" : String).length = 27 := by decide
    rw [h26, h27] at hl
    omega
  · simp only [loadTokenFromConfig, hh, hh', hr, hy]

/-- Witness for C10 at a concrete home directory, with a second environment
whose `readFile` returns a valid config at the documented `openai` path but
agrees with the first at the `openapi` path. -/
theorem config_path_mismatch_witness :
    configPath "/home/u" = "/home/u" ++ "/.config/openapi/secret.yml"
    ∧ (∃ pre post, usageMsg = pre ++ "~/.config/openai/secret.yml" ++ post)
    ∧ documentedConfigPath "/home/u" ≠ configPath "/home/u"
    ∧ loadTokenFromConfig
        { envGood with readFile := fun p =>
            if p = documentedConfigPath "/home/u" then .ok "api_token: other"
            else envGood.readFile p }
        = loadTokenFromConfig envGood :=
  config_path_mismatch "/home/u"
    envGood
    { envGood with readFile := fun p =>
        if p = documentedConfigPath "/home/u" then .ok "api_token: other"
        else envGood.readFile p }
    rfl rfl rfl rfl

end TranslateCli
